import Mathlib

/-!
Shallow embedding of the `InputVerifier` from
`libs/input/rust/input_verifier.rs`, together with theorems checking the
natural-language specification against the code.

Modelling conventions:
* Rust `HashMap<DeviceId, HashSet<i32>>` becomes `DeviceId → Option (Finset ℤ)`
  (a total function returning `none` for absent keys).
* Rust `i32` pointer ids become `ℤ`; no arithmetic is ever performed on them,
  so overflow cannot arise and the embedding is faithful.
* Each distinct `Err(format!(...))` return in the source is embedded as a
  distinct constructor of `VerifierError`; the formatted string itself is
  diagnostic text and carries no control-flow information.
* Rust slice indexing `pointer_properties[i]` panics when out of bounds; the
  embedding makes this explicit with the `PMResult.panic` constructor.
* An `Err` return in Rust leaves `self` in whatever state the branch produced
  so far, so `PMResult.err` carries the state at the moment of the return.
-/

/-- Modelled from the spec: `RustPointerProperties` is defined in the
`crate::ffi` bindings, which are not part of the provided sources. Per the
spec (§6) a pointer record exposes "at minimum an integer pointer
identifier"; only the `id` field is ever read by the verifier. -/
structure RustPointerProperties where
  id : ℤ
deriving DecidableEq, Repr

/-- Modelled from the spec: `DeviceId` is defined in `crate::input`, not in
the provided sources. Per the spec (§3) it is "an opaque, totally-ordered,
hashable token"; we embed it as `ℤ` (the Rust source wraps an `i32`). -/
def DeviceId : Type := ℤ
deriving DecidableEq, Repr

instance : OfNat DeviceId n := ⟨(n : ℤ)⟩

/-- Modelled from the spec: `MotionAction` and its decoding from a raw `u32`
action code live in `crate::input`, not in the provided sources. Per the spec
(§3) the action is "a closed set of variants — `Down`, `PointerDown(index)`,
`Move`, `PointerUp(index)`, `Up`, `Cancel`, `HoverEnter`, `HoverMove`,
`HoverExit`, plus an other/ignored catch-all"; the embedded index of the
pointer-indexed variants is "a position into the event's pointer-list". The
`other` constructor stands for every action code that falls into the
source's `_ => return Ok(())` arm. -/
inductive MotionAction where
  | down
  | pointerDown (actionIndex : ℕ)
  | move
  | pointerUp (actionIndex : ℕ)
  | up
  | cancel
  | hoverEnter
  | hoverMove
  | hoverExit
  | other
deriving DecidableEq, Repr

/-- Modelled from the spec: `MotionFlags` lives in `crate::input`, not in the
provided sources. Per the spec (§4.1, §6) it is a bitmask of which "only the
canceled bit is inspected", via `flags.contains(MotionFlags::CANCELED)`. -/
structure MotionFlags where
  canceled : Bool
deriving DecidableEq, Repr

/-- A per-device map, embedding `HashMap<DeviceId, HashSet<i32>>`. -/
def DeviceMap : Type := DeviceId → Option (Finset ℤ)

/-- `HashMap::insert` / overwriting via `entry` + mutation. -/
def DeviceMap.insertEntry (m : DeviceMap) (d : DeviceId) (v : Finset ℤ) : DeviceMap :=
  fun d' => if d' = d then some v else m d'

/-- `HashMap::remove`. -/
def DeviceMap.removeEntry (m : DeviceMap) (d : DeviceId) : DeviceMap :=
  fun d' => if d' = d then none else m d'

/-- The `InputVerifier` struct from the source (`input_verifier.rs:26`). -/
structure InputVerifier where
  name : String
  should_log : Bool
  touching_pointer_ids_by_device : DeviceMap
  hovering_pointer_ids_by_device : DeviceMap

/-- `InputVerifier::new` (`input_verifier.rs:35`): the logger setup is pure
observability and has no semantic content. -/
def InputVerifier.new (name : String) (should_log : Bool) : InputVerifier :=
  { name := name
    should_log := should_log
    touching_pointer_ids_by_device := fun _ => none
    hovering_pointer_ids_by_device := fun _ => none }

/-- One constructor for each distinct `Err(format!(...))` return of
`process_movement` (`input_verifier.rs:69-213`). -/
inductive VerifierError where
  | downPointersAlreadyDown
  | pointerDownNoPointersDown
  | pointerDownIdAlreadyPresent
  | moveTouchingPointersDontMatch
  | pointerUpNoPointersDown
  | upNoPointersDown
  | upHaveMultiplePointers
  | upPointerNotTouching
  | cancelFlagNotSet
  | cancelPointersDontMatch
  | hoverEnterAlreadyHovering
  | hoverExitNoPointersHovering
  | hoverExitPointersStillHovering
deriving DecidableEq, Repr

/-- Result of one `process_movement` call. `panic` embeds a Rust panic
(out-of-bounds slice indexing); `ok`/`err` carry the post-call state, since a
Rust `Err` return leaves `self` as the branch left it. -/
inductive PMResult where
  | panic
  | ok (s : InputVerifier)
  | err (e : VerifierError) (s : InputVerifier)

/-- `InputVerifier::ensure_touching_pointers_match`
(`input_verifier.rs:224-240`): `false` when the device has no touching
entry; otherwise `true` iff every pointer id in the event's list is a member
of the tracked touching set. -/
def InputVerifier.ensure_touching_pointers_match
    (s : InputVerifier) (device_id : DeviceId)
    (pointer_properties : List RustPointerProperties) : Bool :=
  match s.touching_pointer_ids_by_device device_id with
  | none => false
  | some pointers =>
    pointer_properties.all fun pointer_property => decide (pointer_property.id ∈ pointers)

/-- `InputVerifier::process_movement` (`input_verifier.rs:51-214`), branch by
branch. The `should_log` block (lines 58-67) only reads state and emits a
trace record, so it contributes nothing to the embedded semantics. -/
def InputVerifier.process_movement
    (s : InputVerifier) (device_id : DeviceId) (action : MotionAction)
    (pointer_properties : List RustPointerProperties)
    (flags : MotionFlags) : PMResult :=
  match action with
  | MotionAction.down =>
    -- entry(device_id).or_insert_with(HashSet::new)
    let it := (s.touching_pointer_ids_by_device device_id).getD ∅
    let s₁ := { s with touching_pointer_ids_by_device :=
                  s.touching_pointer_ids_by_device.insertEntry device_id it }
    match pointer_properties[0]? with
    | none => PMResult.panic
    | some pp =>
      if pp.id ∈ it then
        PMResult.err VerifierError.downPointersAlreadyDown s₁
      else
        PMResult.ok { s₁ with touching_pointer_ids_by_device :=
          s₁.touching_pointer_ids_by_device.insertEntry device_id (insert pp.id it) }
  | MotionAction.pointerDown actionIndex =>
    match s.touching_pointer_ids_by_device device_id with
    | none => PMResult.err VerifierError.pointerDownNoPointersDown s
    | some it =>
      match pointer_properties[actionIndex]? with
      | none => PMResult.panic
      | some pp =>
        if pp.id ∈ it then
          PMResult.err VerifierError.pointerDownIdAlreadyPresent s
        else
          PMResult.ok { s with touching_pointer_ids_by_device :=
            s.touching_pointer_ids_by_device.insertEntry device_id (insert pp.id it) }
  | MotionAction.move =>
    if s.ensure_touching_pointers_match device_id pointer_properties then
      PMResult.ok s
    else
      PMResult.err VerifierError.moveTouchingPointersDontMatch s
  | MotionAction.pointerUp actionIndex =>
    match s.touching_pointer_ids_by_device device_id with
    | none => PMResult.err VerifierError.pointerUpNoPointersDown s
    | some it =>
      match pointer_properties[actionIndex]? with
      | none => PMResult.panic
      | some pp =>
        PMResult.ok { s with touching_pointer_ids_by_device :=
          s.touching_pointer_ids_by_device.insertEntry device_id (it.erase pp.id) }
  | MotionAction.up =>
    match s.touching_pointer_ids_by_device device_id with
    | none => PMResult.err VerifierError.upNoPointersDown s
    | some it =>
      if it.card ≠ 1 then
        PMResult.err VerifierError.upHaveMultiplePointers s
      else
        match pointer_properties[0]? with
        | none => PMResult.panic
        | some pp =>
          if pp.id ∉ it then
            PMResult.err VerifierError.upPointerNotTouching s
          else
            PMResult.ok { s with touching_pointer_ids_by_device :=
              s.touching_pointer_ids_by_device.removeEntry device_id }
  | MotionAction.cancel =>
    if ¬ flags.canceled then
      PMResult.err VerifierError.cancelFlagNotSet s
    else if ¬ s.ensure_touching_pointers_match device_id pointer_properties then
      PMResult.err VerifierError.cancelPointersDontMatch s
    else
      PMResult.ok { s with touching_pointer_ids_by_device :=
        s.touching_pointer_ids_by_device.removeEntry device_id }
  | MotionAction.hoverEnter =>
    if (s.hovering_pointer_ids_by_device device_id).isSome then
      PMResult.err VerifierError.hoverEnterAlreadyHovering s
    else
      let it := (s.hovering_pointer_ids_by_device device_id).getD ∅
      match pointer_properties[0]? with
      | none => PMResult.panic
      | some pp =>
        PMResult.ok { s with hovering_pointer_ids_by_device :=
          s.hovering_pointer_ids_by_device.insertEntry device_id (insert pp.id it) }
  | MotionAction.hoverMove =>
    -- For compatibility, HOVER_MOVE without a prior HOVER_ENTER starts a new
    -- hovering pointer: entry(device_id).or_insert_with(HashSet::new)
    let it := (s.hovering_pointer_ids_by_device device_id).getD ∅
    match pointer_properties[0]? with
    | none => PMResult.panic
    | some pp =>
      PMResult.ok { s with hovering_pointer_ids_by_device :=
        s.hovering_pointer_ids_by_device.insertEntry device_id (insert pp.id it) }
  | MotionAction.hoverExit =>
    match s.hovering_pointer_ids_by_device device_id with
    | none => PMResult.err VerifierError.hoverExitNoPointersHovering s
    | some it =>
      match pointer_properties[0]? with
      | none => PMResult.panic
      | some pp =>
        -- it.remove(&pointer_id) happens before the emptiness check
        let it' := it.erase pp.id
        let s₁ := { s with hovering_pointer_ids_by_device :=
                      s.hovering_pointer_ids_by_device.insertEntry device_id it' }
        if it' = ∅ then
          PMResult.ok { s₁ with hovering_pointer_ids_by_device :=
            s₁.hovering_pointer_ids_by_device.removeEntry device_id }
        else
          PMResult.err VerifierError.hoverExitPointersStillHovering s₁
  | MotionAction.other => PMResult.ok s

/-- `InputVerifier::reset_device` (`input_verifier.rs:219-222`). -/
def InputVerifier.reset_device (s : InputVerifier) (device_id : DeviceId) : InputVerifier :=
  { s with
    touching_pointer_ids_by_device :=
      s.touching_pointer_ids_by_device.removeEntry device_id
    hovering_pointer_ids_by_device :=
      s.hovering_pointer_ids_by_device.removeEntry device_id }

/-- Did the call return `Ok(())`? -/
def PMResult.accepted : PMResult → Bool
  | PMResult.ok _ => true
  | _ => false

/-- Did the call return `Err(..)`? -/
def PMResult.rejected : PMResult → Bool
  | PMResult.err _ _ => true
  | _ => false

/-- The verifier state after the call; a panic aborts the process, so the
default is returned in that case. -/
def PMResult.stateD : PMResult → InputVerifier → InputVerifier
  | PMResult.panic, dflt => dflt
  | PMResult.ok s, _ => s
  | PMResult.err _ s, _ => s

/-- Two call results agree as observed through device `d`: same outcome kind,
same diagnostic, and the same touching/hovering entries for `d` afterwards. -/
def PMResult.agreesAt : PMResult → PMResult → DeviceId → Prop
  | PMResult.panic, PMResult.panic, _ => True
  | PMResult.ok s₁, PMResult.ok s₂, d =>
      s₁.touching_pointer_ids_by_device d = s₂.touching_pointer_ids_by_device d ∧
      s₁.hovering_pointer_ids_by_device d = s₂.hovering_pointer_ids_by_device d
  | PMResult.err e₁ s₁, PMResult.err e₂ s₂, d =>
      e₁ = e₂ ∧
      s₁.touching_pointer_ids_by_device d = s₂.touching_pointer_ids_by_device d ∧
      s₁.hovering_pointer_ids_by_device d = s₂.hovering_pointer_ids_by_device d
  | _, _, _ => False

@[simp] theorem DeviceMap.insertEntry_self (m : DeviceMap) (d : DeviceId) (v : Finset ℤ) :
    m.insertEntry d v d = some v := by
  simp [DeviceMap.insertEntry]

theorem DeviceMap.insertEntry_ne (m : DeviceMap) (d : DeviceId) (v : Finset ℤ)
    {d' : DeviceId} (h : d' ≠ d) : m.insertEntry d v d' = m d' := by
  simp [DeviceMap.insertEntry, h]

@[simp] theorem DeviceMap.removeEntry_self (m : DeviceMap) (d : DeviceId) :
    m.removeEntry d d = none := by
  simp [DeviceMap.removeEntry]

theorem DeviceMap.removeEntry_ne (m : DeviceMap) (d : DeviceId)
    {d' : DeviceId} (h : d' ≠ d) : m.removeEntry d d' = m d' := by
  simp [DeviceMap.removeEntry, h]

/-- The `Move`/`Cancel` matching check passes exactly when the device has a
touching entry and every event pointer id belongs to it. -/
theorem ensure_touching_pointers_match_iff (s : InputVerifier) (d : DeviceId)
    (ps : List RustPointerProperties) :
    s.ensure_touching_pointers_match d ps = true ↔
      ∃ it, s.touching_pointer_ids_by_device d = some it ∧ ∀ pp ∈ ps, pp.id ∈ it := by
  unfold InputVerifier.ensure_touching_pointers_match
  cases h : s.touching_pointer_ids_by_device d with
  | none => simp
  | some it => simp [List.all_eq_true]

theorem InputVerifier.eq_of_fields {s t : InputVerifier} (h1 : s.name = t.name)
    (h2 : s.should_log = t.should_log)
    (h3 : s.touching_pointer_ids_by_device = t.touching_pointer_ids_by_device)
    (h4 : s.hovering_pointer_ids_by_device = t.hovering_pointer_ids_by_device) :
    s = t := by
  cases s; cases t; simp_all

/-- C5: the `Move`/`Cancel` pointer check is asymmetric: it passes iff the
device has a touching entry and every pointer id in the event's list belongs
to the tracked touching set (a subset check, not set equality); a `Move`
whose ids form a possibly strict, possibly empty subset of the tracked set is
accepted, while one carrying an id outside the tracked set, or addressed to a
device with no touching entry, is rejected. -/
theorem C5_check_is_subset_not_equality (s : InputVerifier) (d : DeviceId)
    (ps : List RustPointerProperties) (fl : MotionFlags) :
    (s.ensure_touching_pointers_match d ps = true ↔
      ∃ it, s.touching_pointer_ids_by_device d = some it ∧ ∀ pp ∈ ps, pp.id ∈ it) ∧
    (s.process_movement d MotionAction.move ps fl = PMResult.ok s ↔
      s.ensure_touching_pointers_match d ps = true) ∧
    ((s.process_movement d MotionAction.move ps fl).accepted = true ↔
      s.ensure_touching_pointers_match d ps = true) := by
  refine ⟨ensure_touching_pointers_match_iff s d ps, ?_, ?_⟩ <;>
    unfold InputVerifier.process_movement <;>
    cases h : s.ensure_touching_pointers_match d ps <;>
    simp [PMResult.accepted]

/-- Fresh verifier used by the concrete runs below, matching the unit tests'
`InputVerifier::new("Test", false)`. -/
def exS0 : InputVerifier := InputVerifier.new "Test" false

/-- State after an accepted `Down` with pointer id 0 on device 1. -/
def exTouch1 : InputVerifier :=
  (exS0.process_movement 1 MotionAction.down [⟨0⟩] ⟨false⟩).stateD exS0

/-- State after a further accepted `PointerDown(1)` with pointer ids 0, 1. -/
def exTouch2 : InputVerifier :=
  (exTouch1.process_movement 1 (MotionAction.pointerDown 1) [⟨0⟩, ⟨1⟩] ⟨false⟩).stateD exTouch1

/-- C4 counterexample: the claim says a `Move` carrying a strict subset of the
tracked touching pointers is rejected. In the reachable state with tracked
touching set `{0, 1}` on device 1, a `Move` carrying only pointer id 0 — a
strict subset — is accepted, refuting the claim. -/
theorem C4_counterexample :
    (exS0.process_movement 1 MotionAction.down [⟨0⟩] ⟨false⟩).accepted = true ∧
    (exTouch1.process_movement 1 (MotionAction.pointerDown 1) [⟨0⟩, ⟨1⟩] ⟨false⟩).accepted
      = true ∧
    exTouch2.touching_pointer_ids_by_device 1 = some {0, 1} ∧
    (exTouch2.process_movement 1 MotionAction.move [⟨0⟩] ⟨false⟩).accepted = true ∧
    ((1 : ℤ) ∈ ({0, 1} : Finset ℤ) ∧ (1 : ℤ) ∉ ([⟨0⟩] : List RustPointerProperties).map
      RustPointerProperties.id) := by
  refine ⟨rfl, rfl, ?_, rfl, by decide, by decide⟩
  show some (insert (1 : ℤ) (insert 0 (∅ : Finset ℤ))) = some ({0, 1} : Finset ℤ)
  exact congrArg some (Finset.Insert.comm 1 0 ∅)

/-- C4 (amended): for every device, a `Move` (and a `Cancel` whose cancel
flag is set) is accepted exactly when the device has a touching entry and
every pointer id in the event's pointer list is a member of the tracked
touching set — a subset check, so an event carrying fewer pointers than are
tracked is still accepted; substitutions and additions are rejected. -/
theorem C4_amended_subset_acceptance (s : InputVerifier) (d : DeviceId)
    (ps : List RustPointerProperties) :
    ((s.process_movement d MotionAction.move ps ⟨false⟩).accepted = true ↔
      ∃ it, s.touching_pointer_ids_by_device d = some it ∧ ∀ pp ∈ ps, pp.id ∈ it) ∧
    ((s.process_movement d MotionAction.cancel ps ⟨true⟩).accepted = true ↔
      ∃ it, s.touching_pointer_ids_by_device d = some it ∧ ∀ pp ∈ ps, pp.id ∈ it) := by
  constructor <;>
  · unfold InputVerifier.process_movement
    rw [← ensure_touching_pointers_match_iff]
    cases h : s.ensure_touching_pointers_match d ps <;> simp [h, PMResult.accepted]

/-- Definitional reading of the `Down` branch (`input_verifier.rs:70-83`). -/
theorem pm_down_def (s : InputVerifier) (d : DeviceId) (ps : List RustPointerProperties)
    (fl : MotionFlags) :
    s.process_movement d MotionAction.down ps fl =
      (let it := (s.touching_pointer_ids_by_device d).getD ∅
       let s₁ := { s with touching_pointer_ids_by_device :=
                     s.touching_pointer_ids_by_device.insertEntry d it }
       match ps[0]? with
       | none => PMResult.panic
       | some pp =>
         if pp.id ∈ it then PMResult.err VerifierError.downPointersAlreadyDown s₁
         else PMResult.ok { s₁ with touching_pointer_ids_by_device :=
           s₁.touching_pointer_ids_by_device.insertEntry d (insert pp.id it) }) := rfl

/-- Definitional reading of the `PointerDown` branch (`input_verifier.rs:84-101`). -/
theorem pm_pointerDown_def (s : InputVerifier) (d : DeviceId) (i : ℕ)
    (ps : List RustPointerProperties) (fl : MotionFlags) :
    s.process_movement d (MotionAction.pointerDown i) ps fl =
      (match s.touching_pointer_ids_by_device d with
       | none => PMResult.err VerifierError.pointerDownNoPointersDown s
       | some it =>
         match ps[i]? with
         | none => PMResult.panic
         | some pp =>
           if pp.id ∈ it then PMResult.err VerifierError.pointerDownIdAlreadyPresent s
           else PMResult.ok { s with touching_pointer_ids_by_device :=
             s.touching_pointer_ids_by_device.insertEntry d (insert pp.id it) }) := rfl

/-- Definitional reading of the `Move` branch (`input_verifier.rs:102-109`). -/
theorem pm_move_def (s : InputVerifier) (d : DeviceId) (ps : List RustPointerProperties)
    (fl : MotionFlags) :
    s.process_movement d MotionAction.move ps fl =
      (if s.ensure_touching_pointers_match d ps then PMResult.ok s
       else PMResult.err VerifierError.moveTouchingPointersDontMatch s) := rfl

/-- Definitional reading of the `PointerUp` branch (`input_verifier.rs:110-121`). -/
theorem pm_pointerUp_def (s : InputVerifier) (d : DeviceId) (i : ℕ)
    (ps : List RustPointerProperties) (fl : MotionFlags) :
    s.process_movement d (MotionAction.pointerUp i) ps fl =
      (match s.touching_pointer_ids_by_device d with
       | none => PMResult.err VerifierError.pointerUpNoPointersDown s
       | some it =>
         match ps[i]? with
         | none => PMResult.panic
         | some pp =>
           PMResult.ok { s with touching_pointer_ids_by_device :=
             s.touching_pointer_ids_by_device.insertEntry d (it.erase pp.id) }) := rfl

/-- Definitional reading of the `Up` branch (`input_verifier.rs:122-145`). -/
theorem pm_up_def (s : InputVerifier) (d : DeviceId) (ps : List RustPointerProperties)
    (fl : MotionFlags) :
    s.process_movement d MotionAction.up ps fl =
      (match s.touching_pointer_ids_by_device d with
       | none => PMResult.err VerifierError.upNoPointersDown s
       | some it =>
         if it.card ≠ 1 then PMResult.err VerifierError.upHaveMultiplePointers s
         else
           match ps[0]? with
           | none => PMResult.panic
           | some pp =>
             if pp.id ∉ it then PMResult.err VerifierError.upPointerNotTouching s
             else PMResult.ok { s with touching_pointer_ids_by_device :=
               s.touching_pointer_ids_by_device.removeEntry d }) := rfl

/-- Definitional reading of the `Cancel` branch (`input_verifier.rs:146-161`). -/
theorem pm_cancel_def (s : InputVerifier) (d : DeviceId) (ps : List RustPointerProperties)
    (fl : MotionFlags) :
    s.process_movement d MotionAction.cancel ps fl =
      (if ¬ fl.canceled then PMResult.err VerifierError.cancelFlagNotSet s
       else if ¬ s.ensure_touching_pointers_match d ps then
         PMResult.err VerifierError.cancelPointersDontMatch s
       else PMResult.ok { s with touching_pointer_ids_by_device :=
         s.touching_pointer_ids_by_device.removeEntry d }) := rfl

/-- Definitional reading of the `HoverEnter` branch (`input_verifier.rs:168-181`). -/
theorem pm_hoverEnter_def (s : InputVerifier) (d : DeviceId) (ps : List RustPointerProperties)
    (fl : MotionFlags) :
    s.process_movement d MotionAction.hoverEnter ps fl =
      (if (s.hovering_pointer_ids_by_device d).isSome then
         PMResult.err VerifierError.hoverEnterAlreadyHovering s
       else
         match ps[0]? with
         | none => PMResult.panic
         | some pp =>
           PMResult.ok { s with hovering_pointer_ids_by_device :=
             (s.hovering_pointer_ids_by_device.insertEntry d
               (insert pp.id ((s.hovering_pointer_ids_by_device d).getD ∅))) }) := rfl

/-- Definitional reading of the `HoverMove` branch (`input_verifier.rs:182-190`). -/
theorem pm_hoverMove_def (s : InputVerifier) (d : DeviceId) (ps : List RustPointerProperties)
    (fl : MotionFlags) :
    s.process_movement d MotionAction.hoverMove ps fl =
      (match ps[0]? with
       | none => PMResult.panic
       | some pp =>
         PMResult.ok { s with hovering_pointer_ids_by_device :=
           (s.hovering_pointer_ids_by_device.insertEntry d
             (insert pp.id ((s.hovering_pointer_ids_by_device d).getD ∅))) }) := rfl

/-- Definitional reading of the `HoverExit` branch (`input_verifier.rs:191-210`):
the event's pointer is removed from the hovering set before the emptiness
check that decides acceptance. -/
theorem pm_hoverExit_def (s : InputVerifier) (d : DeviceId) (ps : List RustPointerProperties)
    (fl : MotionFlags) :
    s.process_movement d MotionAction.hoverExit ps fl =
      (match s.hovering_pointer_ids_by_device d with
       | none => PMResult.err VerifierError.hoverExitNoPointersHovering s
       | some it =>
         match ps[0]? with
         | none => PMResult.panic
         | some pp =>
           if it.erase pp.id = ∅ then
             PMResult.ok { s with hovering_pointer_ids_by_device :=
               (s.hovering_pointer_ids_by_device.insertEntry d (it.erase pp.id)).removeEntry d }
           else
             PMResult.err VerifierError.hoverExitPointersStillHovering
               { s with hovering_pointer_ids_by_device :=
                 s.hovering_pointer_ids_by_device.insertEntry d (it.erase pp.id) }) := rfl

/-- Definitional reading of the catch-all arm (`input_verifier.rs:211`). -/
theorem pm_other_def (s : InputVerifier) (d : DeviceId) (ps : List RustPointerProperties)
    (fl : MotionFlags) :
    s.process_movement d MotionAction.other ps fl = PMResult.ok s := rfl

/-- A rejected `Up` leaves the verifier exactly as it was. -/
theorem up_err_inv (s : InputVerifier) (d : DeviceId) (ps : List RustPointerProperties)
    (fl : MotionFlags) (e : VerifierError) (s' : InputVerifier)
    (h : s.process_movement d MotionAction.up ps fl = PMResult.err e s') : s' = s := by
  rw [pm_up_def] at h
  repeat' split at h
  all_goals cases h
  all_goals rfl

/-- C6: with a non-empty pointer list, an `Up` for device `d` is accepted iff
the device's touching entry exists, has exactly one member, and that member
is `pointer_list[0].id` (equivalently, the entry is the singleton of that
id); on acceptance the touching entry is removed entirely and nothing else
changes, and on rejection the verifier is left exactly as it was. -/
theorem C6_up_characterization (s : InputVerifier) (d : DeviceId)
    (ps : List RustPointerProperties) (fl : MotionFlags) (pp : RustPointerProperties)
    (h : ps[0]? = some pp) :
    ((s.process_movement d MotionAction.up ps fl).accepted = true ↔
      s.touching_pointer_ids_by_device d = some {pp.id}) ∧
    (s.touching_pointer_ids_by_device d = some {pp.id} →
      s.process_movement d MotionAction.up ps fl =
        PMResult.ok { s with touching_pointer_ids_by_device :=
          s.touching_pointer_ids_by_device.removeEntry d }) ∧
    (∀ e s', s.process_movement d MotionAction.up ps fl = PMResult.err e s' → s' = s) := by
  refine ⟨?_, ?_, fun e s' he => up_err_inv s d ps fl e s' he⟩ <;>
    rw [pm_up_def] <;>
    cases htd : s.touching_pointer_ids_by_device d
  · simp [PMResult.accepted]
  case some it =>
    by_cases hc : it.card = 1
    · obtain ⟨a, rfl⟩ := Finset.card_eq_one.mp hc
      rcases eq_or_ne pp.id a with rfl | hne
      · simp [h, hc, PMResult.accepted]
      · simp [h, hc, Ne.symm hne, PMResult.accepted, Finset.mem_singleton, hne]
    · have : it ≠ {pp.id} := by
        intro hit; exact hc (hit ▸ Finset.card_singleton pp.id)
      simp [h, hc, PMResult.accepted, this]
  · simp
  case some it =>
    intro hit
    injection hit with hit'
    subst hit'
    simp [h]

/-- Concrete state with a single touching pointer id 7 on device 1. -/
def exSingle7 : InputVerifier :=
  { name := "Test"
    should_log := false
    touching_pointer_ids_by_device := fun d => if d = 1 then some {7} else none
    hovering_pointer_ids_by_device := fun _ => none }

theorem C6_up_characterization_witness :
    ((exSingle7.process_movement 1 MotionAction.up [⟨7⟩] ⟨false⟩).accepted = true ↔
      exSingle7.touching_pointer_ids_by_device 1 = some {7}) ∧
    exSingle7.process_movement 1 MotionAction.up [⟨7⟩] ⟨false⟩ =
      PMResult.ok { exSingle7 with touching_pointer_ids_by_device :=
        exSingle7.touching_pointer_ids_by_device.removeEntry 1 } := by
  have h := C6_up_characterization exSingle7 1 [⟨7⟩] ⟨false⟩ ⟨7⟩ rfl
  exact ⟨h.1, h.2.1 (by simp [exSingle7])⟩

/-- C2 counterexample: the claim says `process_movement` is total for any
pointer list including the empty list. A `Down` with an empty pointer list
dereferences `pointer_list[0]` and panics (index out of bounds), so the call
neither returns `Ok` nor an `Err` diagnostic. -/
theorem C2_counterexample :
    exS0.process_movement 1 MotionAction.down [] ⟨false⟩ = PMResult.panic := rfl

/-- C2 (amended): `process_movement` never panics provided the pointer list
is non-empty and, for the pointer-indexed variants `PointerDown(i)` /
`PointerUp(i)`, the embedded index is within the pointer list's bounds; under
those caller-contract conditions every call returns `Ok` or an `Err`
diagnostic. -/
theorem C2_amended_total_when_in_bounds (s : InputVerifier) (d : DeviceId) (a : MotionAction)
    (ps : List RustPointerProperties) (fl : MotionFlags)
    (hne : ps ≠ [])
    (hidx : ∀ i, a = MotionAction.pointerDown i ∨ a = MotionAction.pointerUp i →
      i < ps.length) :
    s.process_movement d a ps fl ≠ PMResult.panic := by
  obtain ⟨pp0, h0⟩ : ∃ pp, ps[0]? = some pp := by
    cases ps with
    | nil => exact absurd rfl hne
    | cons x xs => exact ⟨x, by simp⟩
  cases a with
  | down =>
    rw [pm_down_def]
    repeat' split
    all_goals simp_all
    split <;> simp
  | pointerDown i =>
    have hi : i < ps.length := hidx i (Or.inl rfl)
    rw [pm_pointerDown_def]
    repeat' split
    all_goals simp_all
  | move =>
    rw [pm_move_def]
    split <;> simp
  | pointerUp i =>
    have hi : i < ps.length := hidx i (Or.inr rfl)
    rw [pm_pointerUp_def]
    repeat' split
    all_goals simp_all
  | up =>
    rw [pm_up_def]
    repeat' split
    all_goals simp_all
  | cancel =>
    rw [pm_cancel_def]
    repeat' split
    all_goals simp_all
  | hoverEnter =>
    rw [pm_hoverEnter_def]
    repeat' split
    all_goals simp_all
  | hoverMove =>
    rw [pm_hoverMove_def]
    repeat' split
    all_goals simp_all
  | hoverExit =>
    rw [pm_hoverExit_def]
    repeat' split
    all_goals simp_all
  | other =>
    rw [pm_other_def]
    simp

theorem C2_amended_total_when_in_bounds_witness :
    exS0.process_movement 1 MotionAction.down [⟨0⟩] ⟨false⟩ ≠ PMResult.panic :=
  C2_amended_total_when_in_bounds exS0 1 MotionAction.down [⟨0⟩] ⟨false⟩
    (by simp) (fun i h => by rcases h with h | h <;> simp at h)

/-- State after an accepted `HoverEnter` with pointer id 5 on device 1. -/
def exHover1 : InputVerifier :=
  (exS0.process_movement 1 MotionAction.hoverEnter [⟨5⟩] ⟨false⟩).stateD exS0

/-- State after a further accepted `HoverMove` with pointer id 7: the
hovering set of device 1 now holds two pointers. -/
def exHover2 : InputVerifier :=
  (exHover1.process_movement 1 MotionAction.hoverMove [⟨7⟩] ⟨false⟩).stateD exHover1

/-- State after the subsequent rejected `HoverExit` with pointer id 5. -/
def exHover3 : InputVerifier :=
  (exHover2.process_movement 1 MotionAction.hoverExit [⟨5⟩] ⟨false⟩).stateD exHover2

/-- C1 counterexample: a `HoverExit` rejected because the hovering set is
still non-empty after removing the event's pointer does mutate state. From a
fresh verifier, accepted `HoverEnter(5)` and `HoverMove(7)` leave device 1
hovering `{5, 7}`; `HoverExit(5)` is then rejected, yet afterwards the
hovering entry is `{7}` — not the pre-call `{5, 7}`. -/
theorem C1_counterexample :
    (exS0.process_movement 1 MotionAction.hoverEnter [⟨5⟩] ⟨false⟩).accepted = true ∧
    (exHover1.process_movement 1 MotionAction.hoverMove [⟨7⟩] ⟨false⟩).accepted = true ∧
    (exHover2.process_movement 1 MotionAction.hoverExit [⟨5⟩] ⟨false⟩).rejected = true ∧
    exHover2.hovering_pointer_ids_by_device 1 = some {5, 7} ∧
    exHover3.hovering_pointer_ids_by_device 1 = some {7} ∧
    exHover3.hovering_pointer_ids_by_device 1 ≠ exHover2.hovering_pointer_ids_by_device 1 := by
  have h4 : exHover2.hovering_pointer_ids_by_device 1 = some {5, 7} := by
    show some (insert (7 : ℤ) (insert 5 ∅)) = some {5, 7}
    exact congrArg some (Finset.Insert.comm 7 5 ∅)
  have h5 : exHover3.hovering_pointer_ids_by_device 1 = some {7} := rfl
  refine ⟨rfl, rfl, rfl, h4, h5, ?_⟩
  rw [h4, h5]
  intro hcontra
  have h57 : (5 : ℤ) ∈ ({7} : Finset ℤ) := by
    rw [Option.some.inj hcontra]; simp
  simp at h57

/-- What a rejected call does to the state: the touching map is never
changed, and the hovering map changes only for the rejected device of a
`HoverExit` whose hovering set remained non-empty after the removal. -/
theorem process_movement_err_frame (s : InputVerifier) (d : DeviceId)
    (a : MotionAction) (ps : List RustPointerProperties) (fl : MotionFlags)
    (e : VerifierError) (s' : InputVerifier) (d' : DeviceId)
    (h : s.process_movement d a ps fl = PMResult.err e s') :
    s'.touching_pointer_ids_by_device d' = s.touching_pointer_ids_by_device d' ∧
    ((d' = d ∧ e = VerifierError.hoverExitPointersStillHovering) ∨
      s'.hovering_pointer_ids_by_device d' = s.hovering_pointer_ids_by_device d') := by
  cases a with
  | down =>
    rw [pm_down_def] at h
    cases hps : ps[0]? with
    | none => simp only [hps] at h; cases h
    | some pp =>
      simp only [hps] at h
      by_cases hmem : pp.id ∈ (s.touching_pointer_ids_by_device d).getD ∅
      · rw [if_pos hmem] at h
        cases h
        refine ⟨?_, Or.inr rfl⟩
        cases htd : s.touching_pointer_ids_by_device d with
        | none => rw [htd] at hmem; simp at hmem
        | some v =>
          rcases eq_or_ne d' d with rfl | hne
          · simp [DeviceMap.insertEntry, htd]
          · exact DeviceMap.insertEntry_ne _ _ _ hne
      · rw [if_neg hmem] at h
        cases h
  | pointerDown i =>
    rw [pm_pointerDown_def] at h
    repeat' split at h
    all_goals cases h
    all_goals exact ⟨rfl, Or.inr rfl⟩
  | move =>
    rw [pm_move_def] at h
    split at h
    all_goals cases h
    exact ⟨rfl, Or.inr rfl⟩
  | pointerUp i =>
    rw [pm_pointerUp_def] at h
    repeat' split at h
    all_goals cases h
    all_goals exact ⟨rfl, Or.inr rfl⟩
  | up =>
    rw [pm_up_def] at h
    repeat' split at h
    all_goals cases h
    all_goals exact ⟨rfl, Or.inr rfl⟩
  | cancel =>
    rw [pm_cancel_def] at h
    repeat' split at h
    all_goals cases h
    all_goals exact ⟨rfl, Or.inr rfl⟩
  | hoverEnter =>
    rw [pm_hoverEnter_def] at h
    repeat' split at h
    all_goals cases h
    exact ⟨rfl, Or.inr rfl⟩
  | hoverMove =>
    rw [pm_hoverMove_def] at h
    repeat' split at h
    all_goals cases h
  | hoverExit =>
    rw [pm_hoverExit_def] at h
    repeat' split at h
    all_goals cases h
    case _ => exact ⟨rfl, Or.inr rfl⟩
    case _ it hit pp hps hne =>
      refine ⟨rfl, ?_⟩
      rcases eq_or_ne d' d with rfl | hd
      · exact Or.inl ⟨rfl, rfl⟩
      · exact Or.inr (DeviceMap.insertEntry_ne _ _ _ hd)
  | other =>
    rw [pm_other_def] at h
    cases h

/-- C1 (amended): every rejecting `process_movement` branch leaves the
touching map untouched for every device, and every rejecting branch other
than `HoverExit`'s still-hovering rejection also leaves the hovering map
untouched for every device; only a rejected `HoverExit` with diagnostic
`hoverExitPointersStillHovering` may change the rejected device's own
hovering entry (the event's pointer has been removed from it). -/
theorem C1_amended_atomic_except_hover_exit (s : InputVerifier) (d : DeviceId)
    (a : MotionAction) (ps : List RustPointerProperties) (fl : MotionFlags)
    (e : VerifierError) (s' : InputVerifier) (d' : DeviceId)
    (h : s.process_movement d a ps fl = PMResult.err e s') :
    s'.touching_pointer_ids_by_device d' = s.touching_pointer_ids_by_device d' ∧
    ((d' = d ∧ e = VerifierError.hoverExitPointersStillHovering) ∨
      s'.hovering_pointer_ids_by_device d' = s.hovering_pointer_ids_by_device d') :=
  process_movement_err_frame s d a ps fl e s' d' h

theorem C1_amended_atomic_except_hover_exit_witness :
    exS0.touching_pointer_ids_by_device 1 = exS0.touching_pointer_ids_by_device 1 ∧
    (((1 : DeviceId) = 1 ∧ VerifierError.upNoPointersDown =
        VerifierError.hoverExitPointersStillHovering) ∨
      exS0.hovering_pointer_ids_by_device 1 = exS0.hovering_pointer_ids_by_device 1) :=
  C1_amended_atomic_except_hover_exit exS0 1 MotionAction.up [⟨0⟩] ⟨false⟩
    VerifierError.upNoPointersDown exS0 1 rfl

/-- States reachable from a fresh verifier through accepted
`process_movement` calls and `reset_device` calls. -/
inductive Reachable : InputVerifier → Prop where
  | init (name : String) (log : Bool) : Reachable (InputVerifier.new name log)
  | step {s s' : InputVerifier} (d : DeviceId) (a : MotionAction)
      (ps : List RustPointerProperties) (fl : MotionFlags) :
      Reachable s → s.process_movement d a ps fl = PMResult.ok s' → Reachable s'
  | reset {s : InputVerifier} (d : DeviceId) :
      Reachable s → Reachable (s.reset_device d)

/-- C3 counterexample: the claim says no accepted sequence of
`HoverEnter`/`HoverMove` events can produce a hovering set with two distinct
members. The reachable state after accepted `HoverEnter(5)` and
`HoverMove(7)` on device 1 has hovering set `{5, 7}`, which contains the two
distinct members 5 and 7. -/
theorem C3_counterexample :
    Reachable exHover2 ∧
    exHover2.hovering_pointer_ids_by_device 1 = some {5, 7} ∧
    (5 : ℤ) ∈ ({5, 7} : Finset ℤ) ∧ (7 : ℤ) ∈ ({5, 7} : Finset ℤ) ∧ (5 : ℤ) ≠ 7 := by
  refine ⟨?_, ?_, by decide, by decide, by decide⟩
  · have h1 : exS0.process_movement 1 MotionAction.hoverEnter [⟨5⟩] ⟨false⟩ =
        PMResult.ok exHover1 := rfl
    have h2 : exHover1.process_movement 1 MotionAction.hoverMove [⟨7⟩] ⟨false⟩ =
        PMResult.ok exHover2 := rfl
    exact Reachable.step 1 MotionAction.hoverMove [⟨7⟩] ⟨false⟩
      (Reachable.step 1 MotionAction.hoverEnter [⟨5⟩] ⟨false⟩
        (Reachable.init "Test" false) h1) h2
  · show some (insert (7 : ℤ) (insert 5 ∅)) = some {5, 7}
    exact congrArg some (Finset.Insert.comm 7 5 ∅)

/-- How one accepted call can change a device's hovering entry: it is
unchanged, deleted (`HoverExit`), set to a fresh singleton (`HoverEnter`), or
enlarged with the event's first pointer id (`HoverMove`). -/
theorem hovering_after_ok (s s' : InputVerifier) (d : DeviceId) (a : MotionAction)
    (ps : List RustPointerProperties) (fl : MotionFlags)
    (h : s.process_movement d a ps fl = PMResult.ok s') (dd : DeviceId) :
    s'.hovering_pointer_ids_by_device dd = s.hovering_pointer_ids_by_device dd ∨
    s'.hovering_pointer_ids_by_device dd = none ∨
    (dd = d ∧ ∃ pp, ps[0]? = some pp ∧
      ((a = MotionAction.hoverEnter ∧ s.hovering_pointer_ids_by_device d = none ∧
        s'.hovering_pointer_ids_by_device dd = some {pp.id}) ∨
       (a = MotionAction.hoverMove ∧
        s'.hovering_pointer_ids_by_device dd =
          some (insert pp.id ((s.hovering_pointer_ids_by_device d).getD ∅))))) := by
  cases a with
  | down =>
    rw [pm_down_def] at h
    cases hps : ps[0]? with
    | none => simp only [hps] at h; cases h
    | some pp =>
      simp only [hps] at h
      by_cases hmem : pp.id ∈ (s.touching_pointer_ids_by_device d).getD ∅
      · rw [if_pos hmem] at h; cases h
      · rw [if_neg hmem] at h; cases h; exact Or.inl rfl
  | pointerDown i =>
    rw [pm_pointerDown_def] at h
    repeat' split at h
    all_goals cases h
    exact Or.inl rfl
  | move =>
    rw [pm_move_def] at h
    split at h
    all_goals cases h
    exact Or.inl rfl
  | pointerUp i =>
    rw [pm_pointerUp_def] at h
    repeat' split at h
    all_goals cases h
    exact Or.inl rfl
  | up =>
    rw [pm_up_def] at h
    repeat' split at h
    all_goals cases h
    exact Or.inl rfl
  | cancel =>
    rw [pm_cancel_def] at h
    repeat' split at h
    all_goals cases h
    exact Or.inl rfl
  | hoverEnter =>
    rw [pm_hoverEnter_def] at h
    by_cases hsome : (s.hovering_pointer_ids_by_device d).isSome
    · rw [if_pos hsome] at h; cases h
    · rw [if_neg hsome] at h
      have hnone : s.hovering_pointer_ids_by_device d = none :=
        Option.not_isSome_iff_eq_none.mp hsome
      cases hps : ps[0]? with
      | none => simp only [hps] at h; cases h
      | some pp =>
        simp only [hps] at h
        cases h
        rcases eq_or_ne dd d with rfl | hne
        · refine Or.inr (Or.inr ⟨rfl, pp, rfl, Or.inl ⟨rfl, hnone, ?_⟩⟩)
          simp [DeviceMap.insertEntry, hnone]
        · exact Or.inl (DeviceMap.insertEntry_ne _ _ _ hne)
  | hoverMove =>
    rw [pm_hoverMove_def] at h
    cases hps : ps[0]? with
    | none => simp only [hps] at h; cases h
    | some pp =>
      simp only [hps] at h
      cases h
      rcases eq_or_ne dd d with rfl | hne
      · exact Or.inr (Or.inr ⟨rfl, pp, rfl, Or.inr ⟨rfl, by
          simp [DeviceMap.insertEntry]⟩⟩)
      · exact Or.inl (DeviceMap.insertEntry_ne _ _ _ hne)
  | hoverExit =>
    rw [pm_hoverExit_def] at h
    cases hh : s.hovering_pointer_ids_by_device d with
    | none => simp only [hh] at h; cases h
    | some it =>
      simp only [hh] at h
      cases hps : ps[0]? with
      | none => simp only [hps] at h; cases h
      | some pp =>
        simp only [hps] at h
        by_cases hemp : it.erase pp.id = ∅
        · rw [if_pos hemp] at h
          cases h
          rcases eq_or_ne dd d with rfl | hne
          · exact Or.inr (Or.inl (by simp [DeviceMap.removeEntry]))
          · refine Or.inl ?_
            have h1 := @DeviceMap.removeEntry_ne
              ((s.hovering_pointer_ids_by_device).insertEntry d (it.erase pp.id)) d dd hne
            have h2 := @DeviceMap.insertEntry_ne (s.hovering_pointer_ids_by_device) d
              (it.erase pp.id) dd hne
            exact h1.trans h2
        · rw [if_neg hemp] at h
          cases h
  | other =>
    rw [pm_other_def] at h
    cases h
    exact Or.inl rfl

/-- Reachability restricted as the amended C3 requires: every accepted
`HoverMove` either found no hovering entry for its device or carried a
pointer id already hovering there. -/
inductive ReachableTame : InputVerifier → Prop where
  | init (name : String) (log : Bool) : ReachableTame (InputVerifier.new name log)
  | step {s s' : InputVerifier} (d : DeviceId) (a : MotionAction)
      (ps : List RustPointerProperties) (fl : MotionFlags) :
      ReachableTame s → s.process_movement d a ps fl = PMResult.ok s' →
      (a = MotionAction.hoverMove →
        ∀ it pp, s.hovering_pointer_ids_by_device d = some it → ps[0]? = some pp →
          pp.id ∈ it) →
      ReachableTame s'
  | reset {s : InputVerifier} (d : DeviceId) :
      ReachableTame s → ReachableTame (s.reset_device d)

/-- C3 (amended): after every accepted event the hovering set of every
device has at most one member, provided each accepted `HoverMove` carried a
pointer already hovering (or found no hovering entry); without that proviso
an accepted `HoverMove` can enlarge the hovering set past one member, as the
counterexample shows. -/
theorem C3_amended_hover_at_most_one (s : InputVerifier) (h : ReachableTame s)
    (dd : DeviceId) (it : Finset ℤ)
    (hit : s.hovering_pointer_ids_by_device dd = some it) : it.card ≤ 1 := by
  induction h generalizing dd it with
  | init name log => simp [InputVerifier.new] at hit
  | step d a ps fl hr hok htame ih =>
    rename_i sPrev sNext
    rcases hovering_after_ok _ _ _ _ _ _ hok dd with heq | hnone | ⟨rfl, pp, hps, hcase⟩
    · exact ih dd it (heq.symm.trans hit)
    · rw [hnone] at hit; cases hit
    · rcases hcase with ⟨ha, hnone2, hval⟩ | ⟨ha, hval⟩
      · have hit' : ({pp.id} : Finset ℤ) = it := Option.some.inj (hval.symm.trans hit)
        rw [← hit']
        simp
      · subst ha
        have hit' : insert pp.id ((sPrev.hovering_pointer_ids_by_device dd).getD ∅) = it :=
          Option.some.inj (hval.symm.trans hit)
        rw [← hit']
        cases hh : sPrev.hovering_pointer_ids_by_device dd with
        | none => simp [hh]
        | some it₀ =>
          have hmem : pp.id ∈ it₀ := htame rfl it₀ pp hh hps
          rw [Option.getD_some, Finset.insert_eq_self.mpr hmem]
          exact ih dd it₀ hh
  | reset d hr ih =>
    rename_i sPrev
    rcases eq_or_ne dd d with rfl | hne
    · have h2 := DeviceMap.removeEntry_self sPrev.hovering_pointer_ids_by_device dd
      cases h2.symm.trans hit
    · have h2 := @DeviceMap.removeEntry_ne sPrev.hovering_pointer_ids_by_device d dd hne
      exact ih dd it (h2.symm.trans hit)

theorem C3_amended_hover_at_most_one_witness : (insert (5 : ℤ) ∅ : Finset ℤ).card ≤ 1 :=
  C3_amended_hover_at_most_one exHover1
    (ReachableTame.step 1 MotionAction.hoverEnter [⟨5⟩] ⟨false⟩
      (ReachableTame.init "Test" false) rfl (by intro hmv; cases hmv))
    1 (insert 5 ∅) rfl

/-- Locality: two verifiers agreeing on device `d`'s entries produce the
same outcome (panic / accept / same diagnostic) for any call on `d`, with
the same post-call entries for `d`. -/
theorem process_movement_agreesAt (s t : InputVerifier) (d : DeviceId) (a : MotionAction)
    (ps : List RustPointerProperties) (fl : MotionFlags)
    (ht : s.touching_pointer_ids_by_device d = t.touching_pointer_ids_by_device d)
    (hh : s.hovering_pointer_ids_by_device d = t.hovering_pointer_ids_by_device d) :
    PMResult.agreesAt (s.process_movement d a ps fl) (t.process_movement d a ps fl) d := by
  have hens : s.ensure_touching_pointers_match d ps = t.ensure_touching_pointers_match d ps := by
    unfold InputVerifier.ensure_touching_pointers_match
    rw [ht]
  cases a with
  | down =>
    rw [pm_down_def, pm_down_def]
    cases hps : ps[0]? with
    | none => simp [PMResult.agreesAt]
    | some pp =>
      simp only [hps, ht]
      by_cases hmem : pp.id ∈ (t.touching_pointer_ids_by_device d).getD ∅
      · rw [if_pos hmem, if_pos hmem]
        simp [PMResult.agreesAt, DeviceMap.insertEntry, ht, hh]
      · rw [if_neg hmem, if_neg hmem]
        simp [PMResult.agreesAt, DeviceMap.insertEntry, ht, hh]
  | pointerDown i =>
    rw [pm_pointerDown_def, pm_pointerDown_def, ht]
    cases htt : t.touching_pointer_ids_by_device d with
    | none => simp [PMResult.agreesAt, ht, hh]
    | some it =>
      cases hps : ps[i]? with
      | none => simp [PMResult.agreesAt]
      | some pp =>
        simp only [hps]
        by_cases hmem : pp.id ∈ it
        · rw [if_pos hmem, if_pos hmem]
          simp [PMResult.agreesAt, ht, hh]
        · rw [if_neg hmem, if_neg hmem]
          simp [PMResult.agreesAt, DeviceMap.insertEntry, ht, hh]
  | move =>
    rw [pm_move_def, pm_move_def, hens]
    cases he : t.ensure_touching_pointers_match d ps <;>
      simp [PMResult.agreesAt, ht, hh]
  | pointerUp i =>
    rw [pm_pointerUp_def, pm_pointerUp_def, ht]
    cases htt : t.touching_pointer_ids_by_device d with
    | none => simp [PMResult.agreesAt, ht, hh]
    | some it =>
      cases hps : ps[i]? with
      | none => simp [PMResult.agreesAt]
      | some pp => simp [PMResult.agreesAt, DeviceMap.insertEntry, ht, hh]
  | up =>
    rw [pm_up_def, pm_up_def, ht]
    cases htt : t.touching_pointer_ids_by_device d with
    | none => simp [PMResult.agreesAt, ht, hh]
    | some it =>
      dsimp only
      by_cases hc : it.card ≠ 1
      · rw [if_pos hc, if_pos hc]
        simp [PMResult.agreesAt, ht, hh]
      · rw [if_neg hc, if_neg hc]
        cases hps : ps[0]? with
        | none => simp [PMResult.agreesAt]
        | some pp =>
          simp only
          by_cases hmem : pp.id ∉ it
          · rw [if_pos hmem, if_pos hmem]
            simp [PMResult.agreesAt, ht, hh]
          · rw [if_neg hmem, if_neg hmem]
            simp [PMResult.agreesAt, DeviceMap.removeEntry, ht, hh]
  | cancel =>
    rw [pm_cancel_def, pm_cancel_def, hens]
    by_cases hcf : ¬ fl.canceled
    · rw [if_pos hcf, if_pos hcf]
      simp [PMResult.agreesAt, ht, hh]
    · rw [if_neg hcf, if_neg hcf]
      by_cases he : ¬ t.ensure_touching_pointers_match d ps
      · rw [if_pos he, if_pos he]
        simp [PMResult.agreesAt, ht, hh]
      · rw [if_neg he, if_neg he]
        simp [PMResult.agreesAt, DeviceMap.removeEntry, ht, hh]
  | hoverEnter =>
    rw [pm_hoverEnter_def, pm_hoverEnter_def, hh]
    by_cases hsome : (t.hovering_pointer_ids_by_device d).isSome
    · rw [if_pos hsome, if_pos hsome]
      simp [PMResult.agreesAt, ht, hh]
    · rw [if_neg hsome, if_neg hsome]
      cases hps : ps[0]? with
      | none => simp [PMResult.agreesAt]
      | some pp => simp [PMResult.agreesAt, DeviceMap.insertEntry, ht, hh]
  | hoverMove =>
    rw [pm_hoverMove_def, pm_hoverMove_def, hh]
    cases hps : ps[0]? with
    | none => simp [PMResult.agreesAt]
    | some pp => simp [PMResult.agreesAt, DeviceMap.insertEntry, ht, hh]
  | hoverExit =>
    rw [pm_hoverExit_def, pm_hoverExit_def, hh]
    cases hht : t.hovering_pointer_ids_by_device d with
    | none => simp [PMResult.agreesAt, ht, hh]
    | some it =>
      cases hps : ps[0]? with
      | none => simp [PMResult.agreesAt]
      | some pp =>
        simp only
        by_cases hemp : it.erase pp.id = ∅
        · rw [if_pos hemp, if_pos hemp]
          simp [PMResult.agreesAt, DeviceMap.removeEntry, ht, hh]
        · rw [if_neg hemp, if_neg hemp]
          simp [PMResult.agreesAt, DeviceMap.insertEntry, ht, hh]
  | other =>
    rw [pm_other_def, pm_other_def]
    simp [PMResult.agreesAt, ht, hh]

/-- Frame property of accepted calls: an accepted call on device `d` leaves
the entries of every other device untouched. -/
theorem process_movement_ok_frame (s : InputVerifier) (d : DeviceId) (a : MotionAction)
    (ps : List RustPointerProperties) (fl : MotionFlags) (s' : InputVerifier)
    (h : s.process_movement d a ps fl = PMResult.ok s') (d' : DeviceId) (hd : d' ≠ d) :
    s'.touching_pointer_ids_by_device d' = s.touching_pointer_ids_by_device d' ∧
    s'.hovering_pointer_ids_by_device d' = s.hovering_pointer_ids_by_device d' := by
  cases a with
  | down =>
    rw [pm_down_def] at h
    cases hps : ps[0]? with
    | none => simp only [hps] at h; cases h
    | some pp =>
      simp only [hps] at h
      by_cases hmem : pp.id ∈ (s.touching_pointer_ids_by_device d).getD ∅
      · rw [if_pos hmem] at h; cases h
      · rw [if_neg hmem] at h
        cases h
        simp [DeviceMap.insertEntry, hd]
  | pointerDown i =>
    rw [pm_pointerDown_def] at h
    cases htd : s.touching_pointer_ids_by_device d with
    | none => simp only [htd] at h; cases h
    | some it =>
      simp only [htd] at h
      cases hps : ps[i]? with
      | none => simp only [hps] at h; cases h
      | some pp =>
        simp only [hps] at h
        by_cases hmem : pp.id ∈ it
        · rw [if_pos hmem] at h; cases h
        · rw [if_neg hmem] at h
          cases h
          simp [DeviceMap.insertEntry, hd]
  | move =>
    rw [pm_move_def] at h
    split at h
    all_goals cases h
    exact ⟨rfl, rfl⟩
  | pointerUp i =>
    rw [pm_pointerUp_def] at h
    cases htd : s.touching_pointer_ids_by_device d with
    | none => simp only [htd] at h; cases h
    | some it =>
      simp only [htd] at h
      cases hps : ps[i]? with
      | none => simp only [hps] at h; cases h
      | some pp =>
        simp only [hps] at h
        cases h
        simp [DeviceMap.insertEntry, hd]
  | up =>
    rw [pm_up_def] at h
    repeat' split at h
    all_goals cases h
    simp [DeviceMap.removeEntry, hd]
  | cancel =>
    rw [pm_cancel_def] at h
    repeat' split at h
    all_goals cases h
    simp [DeviceMap.removeEntry, hd]
  | hoverEnter =>
    rw [pm_hoverEnter_def] at h
    by_cases hsome : (s.hovering_pointer_ids_by_device d).isSome
    · rw [if_pos hsome] at h; cases h
    · rw [if_neg hsome] at h
      cases hps : ps[0]? with
      | none => simp only [hps] at h; cases h
      | some pp =>
        simp only [hps] at h
        cases h
        simp [DeviceMap.insertEntry, hd]
  | hoverMove =>
    rw [pm_hoverMove_def] at h
    cases hps : ps[0]? with
    | none => simp only [hps] at h; cases h
    | some pp =>
      simp only [hps] at h
      cases h
      simp [DeviceMap.insertEntry, hd]
  | hoverExit =>
    rw [pm_hoverExit_def] at h
    cases hh : s.hovering_pointer_ids_by_device d with
    | none => simp only [hh] at h; cases h
    | some it =>
      simp only [hh] at h
      cases hps : ps[0]? with
      | none => simp only [hps] at h; cases h
      | some pp =>
        simp only [hps] at h
        by_cases hemp : it.erase pp.id = ∅
        · rw [if_pos hemp] at h
          cases h
          simp [DeviceMap.insertEntry, DeviceMap.removeEntry, hd]
        · rw [if_neg hemp] at h; cases h
  | other =>
    rw [pm_other_def] at h
    cases h
    exact ⟨rfl, rfl⟩

/-- Frame property for every outcome, phrased through `stateD`. -/
theorem process_movement_frame (s : InputVerifier) (d : DeviceId) (a : MotionAction)
    (ps : List RustPointerProperties) (fl : MotionFlags) (d' : DeviceId) (hd : d' ≠ d) :
    ((s.process_movement d a ps fl).stateD s).touching_pointer_ids_by_device d' =
      s.touching_pointer_ids_by_device d' ∧
    ((s.process_movement d a ps fl).stateD s).hovering_pointer_ids_by_device d' =
      s.hovering_pointer_ids_by_device d' := by
  cases hr : s.process_movement d a ps fl with
  | panic => exact ⟨rfl, rfl⟩
  | ok s1 => exact process_movement_ok_frame s d a ps fl s1 hr d' hd
  | err e s1 =>
    obtain ⟨h1, hor⟩ := process_movement_err_frame s d a ps fl e s1 d' hr
    rcases hor with ⟨rfl, hestill⟩ | h2
    · exact absurd rfl hd
    · exact ⟨h1, h2⟩
/-- C8: device independence: a call on device `d` never changes the
touching or hovering entries of any other device (whatever the outcome),
and its accept/reject result and effect on `d` depend only on `d`'s
entries — two states agreeing on `d` produce agreeing results. -/
theorem C8_frame_and_locality (s t : InputVerifier) (d d' : DeviceId) (a : MotionAction)
    (ps : List RustPointerProperties) (fl : MotionFlags)
    (hd : d' ≠ d)
    (ht : s.touching_pointer_ids_by_device d = t.touching_pointer_ids_by_device d)
    (hh : s.hovering_pointer_ids_by_device d = t.hovering_pointer_ids_by_device d) :
    ((s.process_movement d a ps fl).stateD s).touching_pointer_ids_by_device d' =
      s.touching_pointer_ids_by_device d' ∧
    ((s.process_movement d a ps fl).stateD s).hovering_pointer_ids_by_device d' =
      s.hovering_pointer_ids_by_device d' ∧
    PMResult.agreesAt (s.process_movement d a ps fl) (t.process_movement d a ps fl) d := by
  obtain ⟨h1, h2⟩ := process_movement_frame s d a ps fl d' hd
  exact ⟨h1, h2, process_movement_agreesAt s t d a ps fl ht hh⟩

/-- Second verifier for the C8 witness: agrees with `exSingle7` on device 1
but carries extra state for device 2. -/
def exC8t : InputVerifier :=
  { name := "Test"
    should_log := false
    touching_pointer_ids_by_device :=
      fun d => if d = 1 then some {7} else if d = 2 then some {3} else none
    hovering_pointer_ids_by_device := fun _ => none }

theorem C8_frame_and_locality_witness :
    ((exSingle7.process_movement 1 MotionAction.move [⟨7⟩] ⟨false⟩).stateD
        exSingle7).touching_pointer_ids_by_device 2 =
      exSingle7.touching_pointer_ids_by_device 2 ∧
    ((exSingle7.process_movement 1 MotionAction.move [⟨7⟩] ⟨false⟩).stateD
        exSingle7).hovering_pointer_ids_by_device 2 =
      exSingle7.hovering_pointer_ids_by_device 2 ∧
    PMResult.agreesAt (exSingle7.process_movement 1 MotionAction.move [⟨7⟩] ⟨false⟩)
      (exC8t.process_movement 1 MotionAction.move [⟨7⟩] ⟨false⟩) 1 :=
  C8_frame_and_locality exSingle7 exC8t 1 2 MotionAction.move [⟨7⟩] ⟨false⟩
    (by decide) rfl rfl

theorem DeviceMap.removeEntry_idem (m : DeviceMap) (d : DeviceId) :
    (m.removeEntry d).removeEntry d = m.removeEntry d := by
  funext d'
  simp only [DeviceMap.removeEntry]
  split <;> simp

/-- C7: `reset_device(d)` removes both the touching and hovering entries of
`d`, is idempotent, is a no-op on a verifier holding no state for `d`, and
afterwards any `process_movement` call for `d` agrees — in outcome,
diagnostic, and resulting entries for `d` — with the same call on a verifier
that has never seen `d` (a fresh verifier with the same name and logging
flag). `reset_device` is total, so it never fails. -/
theorem C7_reset_device (s : InputVerifier) (d : DeviceId) (a : MotionAction)
    (ps : List RustPointerProperties) (fl : MotionFlags) :
    (s.reset_device d).touching_pointer_ids_by_device d = none ∧
    (s.reset_device d).hovering_pointer_ids_by_device d = none ∧
    (s.reset_device d).reset_device d = s.reset_device d ∧
    (s.touching_pointer_ids_by_device d = none → s.hovering_pointer_ids_by_device d = none →
      s.reset_device d = s) ∧
    PMResult.agreesAt ((s.reset_device d).process_movement d a ps fl)
      ((InputVerifier.new s.name s.should_log).process_movement d a ps fl) d := by
  refine ⟨DeviceMap.removeEntry_self _ _, DeviceMap.removeEntry_self _ _, ?_, ?_, ?_⟩
  · exact InputVerifier.eq_of_fields rfl rfl (DeviceMap.removeEntry_idem _ _)
      (DeviceMap.removeEntry_idem _ _)
  · intro h1 h2
    refine InputVerifier.eq_of_fields rfl rfl ?_ ?_ <;> funext d' <;>
      rcases eq_or_ne d' d with rfl | hne
    · exact (DeviceMap.removeEntry_self _ _).trans h1.symm
    · exact DeviceMap.removeEntry_ne _ _ hne
    · exact (DeviceMap.removeEntry_self _ _).trans h2.symm
    · exact DeviceMap.removeEntry_ne _ _ hne
  · exact process_movement_agreesAt _ _ d a ps fl
      ((DeviceMap.removeEntry_self _ _).trans rfl)
      ((DeviceMap.removeEntry_self _ _).trans rfl)

theorem C7_reset_device_witness :
    exS0.reset_device 1 = exS0 ∧
    (exS0.reset_device 1).touching_pointer_ids_by_device 1 = none ∧
    (exS0.reset_device 1).hovering_pointer_ids_by_device 1 = none := by
  have h := C7_reset_device exS0 1 MotionAction.down [⟨0⟩] ⟨false⟩
  exact ⟨h.2.2.2.1 rfl rfl, h.1, h.2.1⟩


/-- Overwrite the `should_log` field of the state carried in a result. -/
def PMResult.withLog : PMResult → Bool → PMResult
  | PMResult.panic, _ => PMResult.panic
  | PMResult.ok s, b => PMResult.ok { s with should_log := b }
  | PMResult.err e s, b => PMResult.err e { s with should_log := b }


/-- One call commutes with flipping the logging toggle: the `should_log`
block (`input_verifier.rs:58-67`) only reads state, so a verifier differing
only in `should_log` produces the same result with the same final maps. -/
theorem process_movement_withLog (s : InputVerifier) (b : Bool) (d : DeviceId)
    (a : MotionAction) (ps : List RustPointerProperties) (fl : MotionFlags) :
    ({ s with should_log := b } : InputVerifier).process_movement d a ps fl =
      (s.process_movement d a ps fl).withLog b := by
  cases a <;>
    simp only [pm_down_def, pm_pointerDown_def, pm_move_def, pm_pointerUp_def, pm_up_def,
      pm_cancel_def, pm_hoverEnter_def, pm_hoverMove_def, pm_hoverExit_def, pm_other_def] <;>
    repeat' split
  all_goals try rfl
  all_goals simp_all [PMResult.withLog, InputVerifier.ensure_touching_pointers_match]

/-- One call of the verifier's public mutating interface. -/
inductive VerifierCall where
  | movement (d : DeviceId) (a : MotionAction) (ps : List RustPointerProperties)
      (fl : MotionFlags)
  | reset (d : DeviceId)

/-- The observable outcome of one call. -/
inductive Outcome where
  | panicked
  | accepted
  | rejected (e : VerifierError)
deriving DecidableEq, Repr

/-- Execute one call, returning its outcome and the next state; the verifier
object survives rejections, so an `Err` continues from the state the branch
left. -/
def callStep (s : InputVerifier) : VerifierCall → Outcome × InputVerifier
  | VerifierCall.movement d a ps fl =>
    match s.process_movement d a ps fl with
    | PMResult.panic => (Outcome.panicked, s)
    | PMResult.ok s' => (Outcome.accepted, s')
    | PMResult.err e s' => (Outcome.rejected e, s')
  | VerifierCall.reset d => (Outcome.accepted, s.reset_device d)

/-- Execute a sequence of calls, collecting every call's outcome. -/
def runCalls (s : InputVerifier) : List VerifierCall → List Outcome × InputVerifier
  | [] => ([], s)
  | c :: cs =>
    let r := callStep s c
    let rest := runCalls r.2 cs
    (r.1 :: rest.1, rest.2)

/-- `callStep` commutes with flipping the logging toggle. -/
theorem callStep_withLog (s : InputVerifier) (b : Bool) (c : VerifierCall) :
    callStep { s with should_log := b } c =
      ((callStep s c).1, { (callStep s c).2 with should_log := b }) := by
  cases c with
  | movement d a ps fl =>
    simp only [callStep, process_movement_withLog]
    cases s.process_movement d a ps fl <;> simp [PMResult.withLog]
  | reset d => simp [callStep, InputVerifier.reset_device]

/-- C9: two-run noninterference of the logging toggle: for every input
sequence, two verifiers identical except for `should_log` produce the same
outcome (accept / same diagnostic / panic) on every call and end with the
same touching and hovering maps. -/
theorem C9_logging_noninterference (s : InputVerifier) (b : Bool)
    (calls : List VerifierCall) :
    (runCalls { s with should_log := b } calls).1 = (runCalls s calls).1 ∧
    (runCalls { s with should_log := b } calls).2 =
      { (runCalls s calls).2 with should_log := b } ∧
    (runCalls { s with should_log := b } calls).2.touching_pointer_ids_by_device =
      (runCalls s calls).2.touching_pointer_ids_by_device ∧
    (runCalls { s with should_log := b } calls).2.hovering_pointer_ids_by_device =
      (runCalls s calls).2.hovering_pointer_ids_by_device := by
  have main : ∀ (t : InputVerifier),
      (runCalls { t with should_log := b } calls).1 = (runCalls t calls).1 ∧
      (runCalls { t with should_log := b } calls).2 =
        { (runCalls t calls).2 with should_log := b } := by
    induction calls with
    | nil => exact fun t => ⟨rfl, rfl⟩
    | cons c cs ih =>
      intro t
      simp only [runCalls, callStep_withLog]
      exact ⟨congrArg _ (ih (callStep t c).2).1, (ih (callStep t c).2).2⟩
  refine ⟨(main s).1, (main s).2, ?_, ?_⟩ <;> rw [(main s).2]

/-- C10: an accepted `PointerUp` removing the last touching pointer keeps
the device's touching entry as an empty set rather than deleting it; from
that state an `Up` is rejected (the set does not have exactly one member), a
`Move` carrying any pointer is rejected, and a `Down` for any pointer id is
accepted (yielding a singleton entry). -/
theorem C10_pointer_up_keeps_empty_entry (s s₂ : InputVerifier) (d : DeviceId) (i : ℕ)
    (ps ps₂ : List RustPointerProperties) (fl fl₂ : MotionFlags)
    (pp pp₂ : RustPointerProperties)
    (h : s.touching_pointer_ids_by_device d = some {pp.id})
    (hi : ps[i]? = some pp)
    (h₂ : s₂.touching_pointer_ids_by_device d = some ∅)
    (hpp₂ : ps₂[0]? = some pp₂) :
    ((s.process_movement d (MotionAction.pointerUp i) ps fl).accepted = true ∧
      ((s.process_movement d (MotionAction.pointerUp i) ps fl).stateD
        s).touching_pointer_ids_by_device d = some ∅) ∧
    s₂.process_movement d MotionAction.up ps₂ fl₂ =
      PMResult.err VerifierError.upHaveMultiplePointers s₂ ∧
    s₂.process_movement d MotionAction.move ps₂ fl₂ =
      PMResult.err VerifierError.moveTouchingPointersDontMatch s₂ ∧
    ((s₂.process_movement d MotionAction.down ps₂ fl₂).accepted = true ∧
      ((s₂.process_movement d MotionAction.down ps₂ fl₂).stateD
        s₂).touching_pointer_ids_by_device d = some {pp₂.id}) := by
  refine ⟨⟨?_, ?_⟩, ?_, ?_, ?_, ?_⟩
  · rw [pm_pointerUp_def]
    simp [h, hi, PMResult.accepted]
  · rw [pm_pointerUp_def]
    simp [h, hi, PMResult.stateD, DeviceMap.insertEntry]
  · rw [pm_up_def]
    simp [h₂]
  · rw [pm_move_def]
    have hmem : pp₂ ∈ ps₂ := by
      cases ps₂ with
      | nil => simp at hpp₂
      | cons x xs =>
        simp at hpp₂
        simp [hpp₂]
    have hens : s₂.ensure_touching_pointers_match d ps₂ = false := by
      unfold InputVerifier.ensure_touching_pointers_match
      rw [h₂]
      simp only [List.all_eq_true]
      simp
      exact ⟨pp₂, hmem⟩
    rw [hens]
    simp
  · rw [pm_down_def]
    simp [h₂, hpp₂, PMResult.accepted]
  · rw [pm_down_def]
    simp [h₂, hpp₂, PMResult.stateD, DeviceMap.insertEntry]

/-- Concrete state whose device 1 has an empty — but present — touching
entry, as left behind by an accepted final `PointerUp`. -/
def exEmptyEntry : InputVerifier :=
  { name := "Test"
    should_log := false
    touching_pointer_ids_by_device := fun d => if d = 1 then some ∅ else none
    hovering_pointer_ids_by_device := fun _ => none }

theorem C10_pointer_up_keeps_empty_entry_witness :
    ((exSingle7.process_movement 1 (MotionAction.pointerUp 0) [⟨7⟩] ⟨false⟩).accepted
        = true ∧
      ((exSingle7.process_movement 1 (MotionAction.pointerUp 0) [⟨7⟩] ⟨false⟩).stateD
        exSingle7).touching_pointer_ids_by_device 1 = some ∅) ∧
    exEmptyEntry.process_movement 1 MotionAction.up [⟨3⟩] ⟨false⟩ =
      PMResult.err VerifierError.upHaveMultiplePointers exEmptyEntry ∧
    exEmptyEntry.process_movement 1 MotionAction.move [⟨3⟩] ⟨false⟩ =
      PMResult.err VerifierError.moveTouchingPointersDontMatch exEmptyEntry ∧
    ((exEmptyEntry.process_movement 1 MotionAction.down [⟨3⟩] ⟨false⟩).accepted = true ∧
      ((exEmptyEntry.process_movement 1 MotionAction.down [⟨3⟩] ⟨false⟩).stateD
        exEmptyEntry).touching_pointer_ids_by_device 1 = some {3}) :=
  C10_pointer_up_keeps_empty_entry exSingle7 exEmptyEntry 1 0 [⟨7⟩] [⟨3⟩] ⟨false⟩ ⟨false⟩
    ⟨7⟩ ⟨3⟩ rfl rfl rfl rfl
